import Mathlib

/-!
Verification of the model repository / artifact caching subsystem of the
wmgb-backend service, as implemented in
`src/app/utils/inference_models/model_repository.py`.

The Python classes are shallowly embedded as pure Lean functions over explicit
state values:

* `LocalState` models a `LocalCacheRepository` instance: the on-disk directory
  tree under `base_dir` (one entry per `<base_dir>/<name>/<version>` directory,
  carrying the content of its `model.h5` file when that file exists) together
  with the in-memory `models_cache` dict, keyed by the string `name:version`.
  Environment-induced write failures of `model.save` (disk full, permissions)
  are modelled by the `saveFault` flag.
* `RemoteState` models an `S3Repository` instance: the object listing of the
  bucket (keys with the artifact stored under each key) plus fault flags for
  the two network operations (`list_objects_v2`, `download_file`), whose
  exceptions the Python code lets propagate.
* Artifacts are opaque to the repository layer, so they are embedded as `Nat`.
* Python exceptions are embedded as the `PyErr` error type of `Except`
  results: `FileNotFoundError`, `ValueError` and any other exception class.

The composite `CachingModelRepository` functions additionally return a trace
of the calls they make to the remote repository, so that claims about
network-call counts are statable.
-/

/-- An artifact (a loaded model) is opaque to the repository layer. -/
abbrev Artifact := Nat

/-- Embedded Python exceptions: `FileNotFoundError`, `ValueError`,
and every other exception class (network errors, write failures, ...). -/
inductive PyErr where
  | fileNotFound (msg : String)
  | valueError (msg : String)
  | other (msg : String)
deriving DecidableEq

/-- Digit-string value, e.g. `['1','2'] ↦ 12`. -/
def digitsVal (cs : List Char) : Nat :=
  cs.foldl (fun n c => 10 * n + (c.toNat - 48)) 0

/-- `int(s)` on a plain digit string: `some` of its value when `s` is nonempty
and all digits, `none` (a `ValueError`) otherwise. -/
def pyNatDigits (cs : List Char) : Option Nat :=
  if cs ≠ [] ∧ cs.all Char.isDigit then some (digitsVal cs) else none

/-- `int(v[1:])`, the sort key the source uses on version tags. -/
def pyIntTag (v : String) : Option Nat :=
  pyNatDigits (v.data.drop 1)

/-- Total version of `pyIntTag`, used where the source has already ruled the
`ValueError` case out. -/
def intKey (v : String) : Nat :=
  (pyIntTag v).getD 0

/-- `re.match(r"v\d+", d)`: an (unanchored!) match at the start of `d`, true
iff `d` begins with `v` followed by at least one digit. -/
def vPrefixMatch (d : String) : Bool :=
  match d.data with
  | 'v' :: c :: _ => c.isDigit
  | _ => false

/-- Comparison of version tags by the integer sort key `int(v[1:])`. -/
def tagLe (a b : String) : Prop := intKey a ≤ intKey b

instance : DecidableRel tagLe := fun _ _ => Nat.decLe _ _

instance : IsTotal String tagLe := ⟨fun _ _ => Nat.le_total _ _⟩

instance : IsTrans String tagLe := ⟨fun _ _ _ h h₂ => Nat.le_trans h h₂⟩

/-- `versions.sort(key=lambda v: int(v[1:]))` / `sorted(..., key=...)`:
a stable sort ascending by the embedded integer. -/
def pySortTags (l : List String) : List String :=
  List.insertionSort tagLe l

/-- The version tag `f"v{num}"`. -/
def natTag (n : Nat) : String :=
  "v" ++ Nat.repr n

/-- One directory entry of the local store: the model name, the name of the
subdirectory under it, and the content of that directory's `model.h5` file
when the file exists. -/
abbrev DirEnt := String × String × Option Artifact

/-- Does the directory entry belong to directory `<name>/<v>`? -/
def entryMatches (name v : String) (e : DirEnt) : Bool :=
  e.1 == name && e.2.1 == v

/-- State of a `LocalCacheRepository` instance. -/
structure LocalState where
  baseDir : String
  disk : List DirEnt
  cache : List (String × Artifact)
  saveFault : Bool
deriving DecidableEq

/-- Python dict lookup `models_cache[key]` / `key in models_cache`. -/
def cacheLookup (c : List (String × Artifact)) (k : String) : Option Artifact :=
  match c.find? (fun e => e.1 == k) with
  | some e => some e.2
  | none => none

/-- Python dict assignment `models_cache[key] = model`: replaces in place when
the key is present, appends otherwise. -/
def cacheInsert (c : List (String × Artifact)) (k : String) (a : Artifact) :
    List (String × Artifact) :=
  if c.any (fun e => e.1 == k) then
    c.map (fun e => if e.1 == k then (k, a) else e)
  else
    c ++ [(k, a)]

/-- Does directory `<base_dir>/<name>/<v>` exist on disk? -/
def hasDirB (d : List DirEnt) (name v : String) : Bool :=
  d.any (entryMatches name v)

/-- Content of the file `<base_dir>/<name>/<v>/model.h5`, when it exists. -/
def diskFile (d : List DirEnt) (name v : String) : Option Artifact :=
  match d.find? (entryMatches name v) with
  | some e => e.2.2
  | none => none

/-- `model.save(model_path)`: set the content of `<name>/<v>/model.h5`. -/
def writeFile (d : List DirEnt) (name v : String) (a : Artifact) : List DirEnt :=
  d.map (fun e => if entryMatches name v e then (name, v, some a) else e)

/-- `os.path.join(base_dir, name, v, "model.h5")` in the ordinary case. -/
def modelPathStr (b name v : String) : String :=
  String.mk (b.data ++ ('/' :: name.data) ++ ('/' :: v.data) ++ "/model.h5".data)

namespace LocalCacheRepository

/-- `LocalCacheRepository.get_available_versions`: the subdirectories of the
model directory that match the (unanchored) pattern `v\d+`, sorted by
`int(v[1:])`.  The sort key raises `ValueError` on entries such as `v1abc`
that the unanchored `re.match` let through; in that case the whole call
raises. -/
def get_available_versions (st : LocalState) (name : String) :
    Except PyErr (List String) :=
  let entries := (st.disk.filter (fun e => e.1 == name)).map (fun e => e.2.1)
  let vs := entries.filter vPrefixMatch
  if vs.all (fun v => (pyIntTag v).isSome) then
    .ok (pySortTags vs)
  else
    .error (.valueError "invalid literal for int with base 10")

/-- The version-resolution step shared by `_get_model_path`:
`"latest"` resolves to the last listed version, `versions[-1]`; an explicit
version is passed through.  `none` stands for the zero-versions case in which
`_get_model_path` returns the empty string. -/
def resolve_for_path (st : LocalState) (name version : String) :
    Except PyErr (Option String) :=
  if version == "latest" then
    match get_available_versions st name with
    | .error e => .error e
    | .ok vs => .ok vs.getLast?
  else
    .ok (some version)

/-- `LocalCacheRepository._get_model_path`: `none` stands for the empty-string
result (no versions, or the `model.h5` file absent); `some (v, a)` stands for
the path `<base_dir>/<name>/<v>/model.h5`, whose file holds artifact `a`. -/
def get_model_path (st : LocalState) (name version : String) :
    Except PyErr (Option (String × Artifact)) :=
  match resolve_for_path st name version with
  | .error e => .error e
  | .ok none => .ok none
  | .ok (some v) =>
    match diskFile st.disk name v with
    | none => .ok none
    | some a => .ok (some (v, a))

/-- `LocalCacheRepository.has_model`: `bool(self._get_model_path(...))`, i.e.
true iff the resolved path is nonempty. -/
def has_model (st : LocalState) (name version : String) : Except PyErr Bool :=
  match get_model_path st name version with
  | .error e => .error e
  | .ok r => .ok r.isSome

/-- The inline `"latest"` resolution at the top of
`LocalCacheRepository.get_model` (raising `FileNotFoundError` when no
versions exist). -/
def resolve_actual (st : LocalState) (name version : String) :
    Except PyErr String :=
  if version == "latest" then
    match get_available_versions st name with
    | .error e => .error e
    | .ok vs =>
      match vs.getLast? with
      | none => .error (.fileNotFound ("No versions found for model " ++ name))
      | some v => .ok v
  else
    .ok version

/-- `LocalCacheRepository.get_model`: resolve the version, return straight
from the in-memory cache when the key `name:actual_version` is present,
otherwise load the file found by `_get_model_path` (raising
`FileNotFoundError` when it is absent) and populate the cache. -/
def get_model (st : LocalState) (name version : String) :
    Except PyErr (Artifact × LocalState) :=
  match resolve_actual st name version with
  | .error e => .error e
  | .ok actual =>
    match cacheLookup st.cache (name ++ ":" ++ actual) with
    | some m => .ok (m, st)
    | none =>
      match get_model_path st name version with
      | .error e => .error e
      | .ok none =>
        .error (.fileNotFound
          ("Model " ++ name ++ " version " ++ version ++
            " not found in local storage"))
      | .ok (some (_, a)) =>
        .ok (a, { st with cache := cacheInsert st.cache (name ++ ":" ++ actual) a })

/-- `LocalCacheRepository.save_model`: create the version directory when
absent, write `model.h5` (which can fail for environmental reasons, modelled
by `saveFault`), update the in-memory cache, and return the path written.
The state after the call is returned alongside the result. -/
def save_model (st : LocalState) (name version : String) (a : Artifact) :
    Except PyErr String × LocalState :=
  let st1 := if hasDirB st.disk name version then st
             else { st with disk := st.disk ++ [(name, version, none)] }
  if st1.saveFault then
    (.error (.other "failed to write model file"), st1)
  else
    (.ok (modelPathStr st1.baseDir name version),
     { st1 with disk := writeFile st1.disk name version a,
                cache := cacheInsert st1.cache (name ++ ":" ++ version) a })

end LocalCacheRepository

/-- An external deletion of the file `<base_dir>/<name>/<v>/model.h5` (not an
operation of the repository itself): the version directory remains, the file
is gone, the in-memory cache is untouched. -/
def deleteModelFile (st : LocalState) (name v : String) : LocalState :=
  { st with disk :=
      st.disk.map (fun e => if entryMatches name v e then (name, v, none) else e) }

/-- State of an `S3Repository` instance: the environment namespace, the
objects of the bucket (key plus the artifact serialized under that key), and
fault switches for the two network operations whose exceptions the Python
code lets propagate: `list_objects_v2` and `download_file`. -/
structure RemoteState where
  env : String
  objects : List (String × Artifact)
  listFault : Option PyErr
  downloadFault : Option PyErr
deriving DecidableEq

/-- `re.search(r'/v(\d+)/', path)` over the characters of `path`: the first
maximal digit run enclosed as `/v<digits>/`.  Runs such as `/v1abc/` do not
match, because the digit run must be followed directly by `/`. -/
def searchVSeg : List Char → Option Nat
  | [] => none
  | '/' :: rest =>
    match rest with
    | 'v' :: tail =>
      let ds := tail.takeWhile Char.isDigit
      if ds.isEmpty then searchVSeg rest
      else
        match tail.dropWhile Char.isDigit with
        | '/' :: _ => some (digitsVal ds)
        | _ => searchVSeg rest
    | _ => searchVSeg rest
  | _ :: rest => searchVSeg rest

namespace S3Repository

/-- `S3Repository._parse_version_from_path`. -/
def parse_version_from_path (path : String) : Option Nat :=
  searchVSeg path.data

/-- `S3Repository._list_model_objects`: a prefix listing under
`f"{env}/{model_name}"`.  A listing with no contents is the routine empty
result; a client exception propagates. -/
def list_model_objects (rst : RemoteState) (name : String) :
    Except PyErr (List (String × Artifact)) :=
  match rst.listFault with
  | some e => .error e
  | none =>
    .ok (rst.objects.filter
      (fun o => (rst.env ++ "/" ++ name).data.isPrefixOf o.1.data))

/-- `S3Repository.get_available_versions`: keep the `.h5` keys, extract and
deduplicate their `/v<digits>/` version numbers, return the tags sorted
ascending by integer. -/
def get_available_versions (rst : RemoteState) (name : String) :
    Except PyErr (List String) :=
  match list_model_objects rst name with
  | .error e => .error e
  | .ok objs =>
    let files := objs.filter (fun o => ".h5".data.isSuffixOf o.1.data)
    let nums := (files.filterMap (fun o => parse_version_from_path o.1)).dedup
    .ok (pySortTags (nums.map natTag))

/-- `S3Repository.has_model`. -/
def has_model (rst : RemoteState) (name version : String) :
    Except PyErr Bool :=
  match get_available_versions rst name with
  | .error e => .error e
  | .ok vs =>
    .ok (if vs.isEmpty then false
         else if version == "latest" then true
         else vs.contains version)

/-- `S3Repository._get_model_key`: resolve `"latest"` through
`get_available_versions`, then pick the first `.h5` key whose parsed version
number equals `int(version[1:])`. -/
def get_model_key (rst : RemoteState) (name version : String) :
    Except PyErr String :=
  match list_model_objects rst name with
  | .error e => .error e
  | .ok objs =>
    match (if version == "latest" then
             match get_available_versions rst name with
             | .error e => .error e
             | .ok vs =>
               match vs.getLast? with
               | none =>
                 .error (.fileNotFound
                   ("No versions found for model " ++ name ++ " in S3 bucket"))
               | some v => .ok v
           else .ok version : Except PyErr String) with
    | .error e => .error e
    | .ok ver =>
      match pyIntTag ver with
      | none => .error (.valueError "invalid literal for int with base 10")
      | some num =>
        match (objs.filter (fun o =>
            ".h5".data.isSuffixOf o.1.data
              && parse_version_from_path o.1 == some num)).head? with
        | none =>
          .error (.fileNotFound
            ("Model " ++ name ++ " version " ++ ver ++ " not found in S3 bucket"))
        | some o => .ok o.1

/-- `S3Repository.get_model`: locate the key, download it to a temporary file
(the download can fail with a propagated network error, modelled by
`downloadFault`) and load the artifact.  The final lookup cannot miss, since
the key returned by `_get_model_key` comes from the listing itself. -/
def get_model (rst : RemoteState) (name version : String) :
    Except PyErr Artifact :=
  match get_model_key rst name version with
  | .error e => .error e
  | .ok key =>
    match rst.downloadFault with
    | some e => .error e
    | none =>
      match rst.objects.find? (fun o => o.1 == key) with
      | none => .error (.fileNotFound "listed object vanished")
      | some o => .ok o.2

end S3Repository

/-- One call made by the `CachingModelRepository` to its remote repository:
a version listing, or an artifact fetch (the network download). -/
inductive RemoteCall where
  | listVersions (name : String)
  | fetchModel (name version : String)
deriving DecidableEq

/-- Number of artifact fetches (network downloads) in a remote-call trace. -/
def fetchCount (tr : List RemoteCall) : Nat :=
  tr.countP (fun c => match c with | .fetchModel _ _ => true | _ => false)

namespace CachingModelRepository

/-- `CachingModelRepository.get_available_versions`: local versions first
(an error there propagates), then the remote versions with any error caught
and treated as an empty contribution, then the sorted union.  The second
component is the trace of remote calls made. -/
def get_available_versionsT (lst : LocalState) (rst : RemoteState)
    (name : String) : Except PyErr (List String) × List RemoteCall :=
  match LocalCacheRepository.get_available_versions lst name with
  | .error e => (.error e, [])
  | .ok lv =>
    let rv := match S3Repository.get_available_versions rst name with
      | .ok v => v
      | .error _ => []
    (.ok (pySortTags ((lv ++ rv).dedup)), [.listVersions name])

/-- `CachingModelRepository.has_model`: local first, and by the
short-circuiting `or` the remote repository is consulted only when the local
one reports false. -/
def has_model (lst : LocalState) (rst : RemoteState) (name version : String) :
    Except PyErr Bool :=
  match LocalCacheRepository.has_model lst name version with
  | .error e => .error e
  | .ok true => .ok true
  | .ok false => S3Repository.has_model rst name version

/-- The version-resolution step at the top of
`CachingModelRepository.get_model`: `"latest"` resolves through the composite
`get_available_versions` (raising `FileNotFoundError` on an empty union); an
explicit version is passed through without any call. -/
def resolve_versionT (lst : LocalState) (rst : RemoteState)
    (name version : String) : Except PyErr String × List RemoteCall :=
  if version == "latest" then
    match get_available_versionsT lst rst name with
    | (.error e, tr) => (.error e, tr)
    | (.ok vs, tr) =>
      match vs.getLast? with
      | none => (.error (.fileNotFound ("No versions found for model " ++ name)), tr)
      | some v => (.ok v, tr)
  else
    (.ok version, [])

/-- `CachingModelRepository.get_model`: resolve the version, try the local
repository (catching only `FileNotFoundError`), fall back to the remote
repository (whose errors propagate), then attempt the local promotion
`save_model`, swallowing any error it raises; the state after the promotion
attempt is `(save_model ...).2` whether or not the save succeeded.  The
second component is the trace of remote calls made. -/
def get_modelT (lst : LocalState) (rst : RemoteState) (name version : String) :
    Except PyErr (Artifact × LocalState) × List RemoteCall :=
  match resolve_versionT lst rst name version with
  | (.error e, tr) => (.error e, tr)
  | (.ok actual, tr) =>
    match LocalCacheRepository.get_model lst name actual with
    | .ok (a, lst') => (.ok (a, lst'), tr)
    | .error (.fileNotFound _) =>
      match S3Repository.get_model rst name actual with
      | .error e => (.error e, tr ++ [.fetchModel name actual])
      | .ok a =>
        (.ok (a, (LocalCacheRepository.save_model lst name actual a).2),
         tr ++ [.fetchModel name actual])
    | .error e => (.error e, tr)

end CachingModelRepository

/-! Concrete repository states used by the scenario theorems and witnesses. -/

/-- Local tier holding versions `v1` and `v2` of model `m`. -/
def lstC1 : LocalState :=
  { baseDir := "models", disk := [("m", "v1", some 1), ("m", "v2", some 2)],
    cache := [], saveFault := false }

/-- Remote tier holding versions `v2` and `v3` of model `m`. -/
def rstC1 : RemoteState :=
  { env := "production",
    objects := [("production/m/v2/model.h5", 12), ("production/m/v3/model.h5", 13)],
    listFault := none, downloadFault := none }

/-- The local state after `get_modelT lstC1 rstC1 "m" "latest"`: the remote
`v3` artifact has been promoted to disk and to the in-memory cache. -/
def c1After : LocalState :=
  { baseDir := "models",
    disk := [("m", "v1", some 1), ("m", "v2", some 2), ("m", "v3", some 13)],
    cache := [("m:v3", 13)], saveFault := false }

def lstW2 : LocalState :=
  { baseDir := "models", disk := [("m", "v1", some 1)],
    cache := [], saveFault := false }

def rstW2 : RemoteState :=
  { env := "production", objects := [],
    listFault := some (.other "s3 listing failed"), downloadFault := none }

def lstW3 : LocalState :=
  { baseDir := "models", disk := [], cache := [], saveFault := false }

def rstW3 : RemoteState :=
  { env := "production", objects := [("production/m/v1/model.h5", 7)],
    listFault := none, downloadFault := some (.other "connection reset") }

def lstW4 : LocalState :=
  { baseDir := "models", disk := [], cache := [], saveFault := true }

def rstW4 : RemoteState :=
  { env := "production", objects := [("production/m/v1/model.h5", 7)],
    listFault := none, downloadFault := none }

def lstW5 : LocalState :=
  { baseDir := "models", disk := [], cache := [], saveFault := false }

def rstW5 : RemoteState :=
  { env := "production", objects := [], listFault := none, downloadFault := none }

def c6Base : LocalState :=
  { baseDir := "models", disk := [], cache := [], saveFault := false }

def c6wBase : LocalState :=
  { baseDir := "models", disk := [], cache := [], saveFault := false }

/-- The state after `save_model c6wBase "m" "v1" 7`. -/
def c6wSaved : LocalState :=
  { baseDir := "models", disk := [("m", "v1", some 7)],
    cache := [("m:v1", 7)], saveFault := false }

def rstC6 : RemoteState :=
  { env := "production", objects := [], listFault := none, downloadFault := none }

/-- Local model directory for `m` holding a `v1abc` entry, which the
unanchored `re.match(r"v\d+", ...)` lets through. -/
def lstC7 : LocalState :=
  { baseDir := "models", disk := [("m", "v1abc", some 1), ("m", "v2", some 2)],
    cache := [], saveFault := false }

/-- Remote keys with the analogous unparseable `v1abc` segment. -/
def rstC7 : RemoteState :=
  { env := "production",
    objects := [("production/m/v1abc/model.h5", 1), ("production/m/v2/model.h5", 2)],
    listFault := none, downloadFault := none }

def lstC8 : LocalState :=
  { baseDir := "models", disk := [("m", "v1", some 5)],
    cache := [], saveFault := false }

def rstC8 : RemoteState :=
  { env := "production", objects := [], listFault := none, downloadFault := none }

/-- The state after `get_model lstC8 "m" "v1"` (cache populated on load). -/
def lstC8Cached : LocalState :=
  { baseDir := "models", disk := [("m", "v1", some 5)],
    cache := [("m:v1", 5)], saveFault := false }

def c9Base : LocalState :=
  { baseDir := "models", disk := [], cache := [], saveFault := false }

/-- The state after `save_model c9Base "m" "v1" 3`. -/
def c9Saved : LocalState :=
  { baseDir := "models", disk := [("m", "v1", some 3)],
    cache := [("m:v1", 3)], saveFault := false }

/-- A cache holding the key `m:latest` with an empty disk. -/
def lstC10 : LocalState :=
  { baseDir := "models", disk := [], cache := [("m:latest", 5)], saveFault := false }

def c10Base : LocalState :=
  { baseDir := "models", disk := [], cache := [], saveFault := false }

/-- The state after `save_model c10Base "m" "v1" 9`. -/
def c10Saved : LocalState :=
  { baseDir := "models", disk := [("m", "v1", some 9)],
    cache := [("m:v1", 9)], saveFault := false }

/-! Helper lemmas about the cache map and the on-disk entry list. -/

theorem entryMatches_mk (name v : String) (x : Option Artifact) :
    entryMatches name v (name, v, x) = true := by
  simp [entryMatches]

theorem entryMatches_write (name v : String) (a : Artifact) (e : DirEnt) :
    entryMatches name v
      (if entryMatches name v e then (name, v, some a) else e)
      = entryMatches name v e := by
  cases h : entryMatches name v e <;> simp [h, entryMatches_mk]

theorem hasDirB_append_self (d : List DirEnt) (name v : String)
    (x : Option Artifact) : hasDirB (d ++ [(name, v, x)]) name v = true := by
  simp [hasDirB, List.any_append, entryMatches_mk]

theorem hasDirB_writeFile (d : List DirEnt) (name v : String) (a : Artifact) :
    hasDirB (writeFile d name v a) name v = hasDirB d name v := by
  unfold hasDirB writeFile
  rw [List.any_map]
  exact congrArg d.any (funext fun e => entryMatches_write name v a e)

theorem diskFile_writeFile (name v : String) (a : Artifact) :
    ∀ d : List DirEnt, hasDirB d name v = true →
      diskFile (writeFile d name v a) name v = some a
  | [], h => by simp [hasDirB] at h
  | e :: d, h => by
    cases hm : entryMatches name v e with
    | true =>
      simp [diskFile, writeFile, hm, List.find?_cons_of_pos, entryMatches_mk]
    | false =>
      have hd : hasDirB d name v = true := by
        simpa [hasDirB, hm] using h
      have ih := diskFile_writeFile name v a d hd
      simpa [diskFile, writeFile, hm, List.find?_cons_of_neg] using ih

theorem writeFile_idem (d : List DirEnt) (name v : String) (a : Artifact) :
    writeFile (writeFile d name v a) name v a = writeFile d name v a := by
  unfold writeFile
  rw [List.map_map]
  refine List.map_congr_left fun e _ => ?_
  cases hm : entryMatches name v e <;>
    simp [Function.comp, hm, entryMatches_mk]

theorem diskFile_delete (name v : String) :
    ∀ d : List DirEnt,
      diskFile (d.map (fun e => if entryMatches name v e then (name, v, none) else e))
        name v = none
  | [] => by simp [diskFile]
  | e :: d => by
    cases hm : entryMatches name v e with
    | true =>
      simp [diskFile, hm, List.find?_cons_of_pos, entryMatches_mk]
    | false =>
      have ih := diskFile_delete name v d
      simpa [diskFile, hm, List.find?_cons_of_neg] using ih

theorem cacheLookup_insert (c : List (String × Artifact)) (k : String)
    (a : Artifact) : cacheLookup (cacheInsert c k a) k = some a := by
  unfold cacheInsert
  cases hany : c.any (fun e => e.1 == k) with
  | false =>
    have hnone : c.find? (fun e => e.1 == k) = none := by
      rw [List.find?_eq_none]
      intro x hx hpx
      exact (List.any_eq_false.mp hany x hx) hpx
    rw [if_neg Bool.false_ne_true]
    unfold cacheLookup
    rw [List.find?_append, hnone]
    simp
  | true =>
    rw [if_pos rfl]
    unfold cacheLookup
    rw [List.find?_map]
    have hfun : ((fun e : String × Artifact => e.1 == k) ∘ fun e =>
        if e.1 == k then (k, a) else e) = fun e => e.1 == k := by
      funext e
      cases he : e.1 == k <;> simp [Function.comp, he]
    rw [hfun]
    have hs : (c.find? (fun e => e.1 == k)).isSome := by
      rw [List.find?_isSome]
      rcases List.any_eq_true.mp hany with ⟨e, he, hpe⟩
      exact ⟨e, he, hpe⟩
    rcases Option.isSome_iff_exists.mp hs with ⟨e0, hfind⟩
    have hp0 : e0.1 = k := by simpa using List.find?_some hfind
    rw [hfind]
    simp [hp0]

theorem cacheInsert_any (c : List (String × Artifact)) (k : String)
    (a : Artifact) : (cacheInsert c k a).any (fun e => e.1 == k) = true := by
  unfold cacheInsert
  cases hany : c.any (fun e => e.1 == k) with
  | false =>
    rw [if_neg Bool.false_ne_true]
    simp [List.any_append]
  | true =>
    rw [if_pos rfl]
    rw [List.any_map]
    have hfun : ((fun e : String × Artifact => e.1 == k) ∘ fun e =>
        if e.1 == k then (k, a) else e) = fun e => e.1 == k := by
      funext e
      cases he : e.1 == k <;> simp [Function.comp, he]
    rw [hfun]
    exact hany

theorem cacheInsert_entries (c : List (String × Artifact)) (k : String)
    (a : Artifact) :
    ∀ e ∈ cacheInsert c k a, (e.1 == k) = true → e = (k, a) := by
  unfold cacheInsert
  cases hany : c.any (fun e => e.1 == k) with
  | false =>
    rw [if_neg Bool.false_ne_true]
    intro e he hke
    rcases List.mem_append.mp he with hc | hl
    · exact absurd hke (by simpa using List.any_eq_false.mp hany e hc)
    · simpa using hl
  | true =>
    rw [if_pos rfl]
    intro e he hke
    rcases List.mem_map.mp he with ⟨x, _, hfx⟩
    cases hx : x.1 == k with
    | true => rw [← hfx, if_pos hx]
    | false =>
      rw [← hfx, if_neg (by simp [hx])] at hke ⊢
      exact absurd hke (by simp [hx])

theorem cacheInsert_idem (c : List (String × Artifact)) (k : String)
    (a : Artifact) : cacheInsert (cacheInsert c k a) k a = cacheInsert c k a := by
  have hany := cacheInsert_any c k a
  show (if (cacheInsert c k a).any (fun e => e.1 == k) then
          (cacheInsert c k a).map (fun e => if e.1 == k then (k, a) else e)
        else cacheInsert c k a ++ [(k, a)]) = cacheInsert c k a
  rw [if_pos hany]
  refine (List.map_congr_left fun e he => ?_).trans (List.map_id _)
  cases he2 : e.1 == k with
  | true =>
    have hekv := cacheInsert_entries c k a e he he2
    simp [he2, hekv]
  | false => simp [he2]

/-! Trace lemmas for the caching repository. -/

theorem fetchCount_nil : fetchCount [] = 0 := rfl

theorem fetchCount_append (tr tr₂ : List RemoteCall) :
    fetchCount (tr ++ tr₂) = fetchCount tr + fetchCount tr₂ :=
  List.countP_append _ _ _

theorem fetchCount_listVersions (name : String) :
    fetchCount [RemoteCall.listVersions name] = 0 := rfl

/-- The version-resolution step performs no artifact fetch: its trace is
either empty or a single remote `listVersions` call. -/
theorem resolve_versionT_trace (lst : LocalState) (rst : RemoteState)
    (name version : String) :
    (CachingModelRepository.resolve_versionT lst rst name version).2 = []
      ∨ (CachingModelRepository.resolve_versionT lst rst name version).2
          = [RemoteCall.listVersions name] := by
  unfold CachingModelRepository.resolve_versionT
  cases hv : version == "latest" with
  | false => simp
  | true =>
    simp only [if_pos rfl]
    unfold CachingModelRepository.get_available_versionsT
    cases hl : LocalCacheRepository.get_available_versions lst name with
    | error e => simp
    | ok lv =>
      cases hg : (pySortTags ((lv ++
          (match S3Repository.get_available_versions rst name with
           | .ok v => v
           | .error _ => [])).dedup)).getLast? with
      | none => simp [hg]
      | some v => simp [hg]

theorem resolve_versionT_fetchCount (lst : LocalState) (rst : RemoteState)
    (name version : String) :
    fetchCount (CachingModelRepository.resolve_versionT lst rst name version).2 = 0 := by
  rcases resolve_versionT_trace lst rst name version with h | h <;> rw [h] <;> rfl

/-! The claims. -/

/-- C1: the Caching Repository resolves `get(m, "latest")` through the
composite union listing: with Local holding `{v1, v2}` and Remote holding
`{v2, v3}` it resolves `v3` (which Local alone would not pick), fetches the
artifact from Remote (Local lacks `v3`, as `has_model` shows), and afterwards
the local tier holds `v3`: promotion occurred on disk and in the cache. -/
theorem c1_latest_resolves_union_fetches_and_promotes :
    CachingModelRepository.get_modelT lstC1 rstC1 "m" "latest"
        = (.ok (13, c1After), [.listVersions "m", .fetchModel "m" "v3"])
      ∧ (CachingModelRepository.resolve_versionT lstC1 rstC1 "m" "latest").1
          = .ok "v3"
      ∧ LocalCacheRepository.has_model lstC1 "m" "v3" = .ok false
      ∧ LocalCacheRepository.has_model c1After "m" "v3" = .ok true :=
  ⟨rfl, rfl, rfl, rfl⟩

/-- C7: divergence witness.  A local version directory `v1abc` has no segment
fully matching `v<digits>`, yet `LocalCacheRepository.get_available_versions`
does not ignore it: the unanchored `re.match(r"v\d+", ...)` admits it and the
sort key `int("1abc")` raises `ValueError`.  The remote store, by contrast,
ignores the analogous key `production/m/v1abc/model.h5` as the claim
describes. -/
theorem c7_local_unanchored_match_raises_where_remote_ignores :
    LocalCacheRepository.get_available_versions lstC7 "m"
        = .error (.valueError "invalid literal for int with base 10")
      ∧ S3Repository.get_available_versions rstC7 "m" = .ok ["v2"] :=
  ⟨rfl, rfl⟩

/-- C6 counterexample: `save_model` accepts the version string `"latest"`,
and the save succeeds, but `has_model(m, "latest")` afterwards resolves
`"latest"` symbolically (the `latest` directory does not match `v\d+`), so it
returns `false` — refuting the claim for this saved pair. -/
theorem c6_counterexample_saved_latest_has_false :
    (LocalCacheRepository.save_model c6Base "m" "latest" 7).1
        = .ok (modelPathStr "models" "m" "latest")
      ∧ LocalCacheRepository.has_model
          (LocalCacheRepository.save_model c6Base "m" "latest" 7).2
          "m" "latest" = .ok false :=
  ⟨rfl, rfl⟩

/-- C8 counterexample: for `get(m, "latest")` with the resolved version `v1`
already held by Local (`has_model` is true and the local fetch succeeds), the
Remote store is still contacted: the composite resolution step issues a
remote `listVersions` call, so the trace is not empty. -/
theorem c8_counterexample_latest_contacts_remote_despite_local_hit :
    (CachingModelRepository.resolve_versionT lstC8 rstC8 "m" "latest").1
        = .ok "v1"
      ∧ LocalCacheRepository.has_model lstC8 "m" "v1" = .ok true
      ∧ CachingModelRepository.get_modelT lstC8 rstC8 "m" "latest"
          = (.ok (5, lstC8Cached), [.listVersions "m"])
      ∧ ([RemoteCall.listVersions "m"] : List RemoteCall) ≠ [] :=
  ⟨rfl, rfl, rfl, by simp⟩

/-- C10 counterexample: the key `m:latest` is present in the in-memory cache,
yet `get_model(m, "latest")` does not return the cached artifact: it first
resolves `"latest"` against the (empty) disk listing and raises
`FileNotFoundError`. -/
theorem c10_counterexample_latest_key_not_served_from_cache :
    cacheLookup lstC10.cache ("m" ++ ":" ++ "latest") = some 5
      ∧ LocalCacheRepository.get_model lstC10 "m" "latest"
          = .error (.fileNotFound "No versions found for model m") :=
  ⟨rfl, rfl⟩

/-- Booleanized form of an explicit (non-`"latest"`) version request. -/
theorem beq_latest_false {v : String} (hv : v ≠ "latest") :
    (v == "latest") = false := by
  cases h : v == "latest" with
  | false => rfl
  | true => exact absurd (by simpa using h) hv

/-- Characterization of a successful `save_model` call: the store had no
write fault, the returned path is the conventional one, and the new state is
the old one (with the version directory created if it was absent) with the
`model.h5` file written and the cache key `name:version` set. -/
theorem save_model_ok (st : LocalState) (n v : String) (a : Artifact)
    (p : String) (st₁ : LocalState)
    (hs : LocalCacheRepository.save_model st n v a = (.ok p, st₁)) :
    st.saveFault = false ∧ p = modelPathStr st.baseDir n v ∧
    ∃ st1 : LocalState,
      st1.baseDir = st.baseDir ∧ st1.cache = st.cache ∧
      st1.saveFault = st.saveFault ∧ hasDirB st1.disk n v = true ∧
      st₁ = { st1 with disk := writeFile st1.disk n v a,
                       cache := cacheInsert st1.cache (n ++ ":" ++ v) a } := by
  unfold LocalCacheRepository.save_model at hs
  cases hd : hasDirB st.disk n v with
  | true =>
    simp only [hd, if_true] at hs
    cases hf : st.saveFault with
    | true => simp [hf] at hs
    | false =>
      simp only [hf, Bool.false_eq_true, if_false] at hs
      obtain ⟨hp, hst⟩ := Prod.mk.injEq .. |>.mp hs |>.imp Except.ok.inj id
      exact ⟨rfl, hp.symm, st, rfl, rfl, hf, hd, by simpa [hf] using hst.symm⟩
  | false =>
    simp only [hd, Bool.false_eq_true, if_false] at hs
    cases hf : st.saveFault with
    | true => simp [hf] at hs
    | false =>
      simp only [hf, Bool.false_eq_true, if_false] at hs
      obtain ⟨hp, hst⟩ := Prod.mk.injEq .. |>.mp hs |>.imp Except.ok.inj id
      refine ⟨rfl, hp.symm, { st with disk := st.disk ++ [(n, v, none)] },
        rfl, rfl, hf, hasDirB_append_self st.disk n v none,
        by simpa [hf] using hst.symm⟩

/-- C5: when both tiers hold zero versions for a model name,
`get(name, "latest")` fails with the NotFound condition. -/
theorem c5_empty_tiers_latest_not_found (lst : LocalState) (rst : RemoteState)
    (name : String)
    (hl : LocalCacheRepository.get_available_versions lst name = .ok [])
    (hr : S3Repository.get_available_versions rst name = .ok []) :
    (CachingModelRepository.get_modelT lst rst name "latest").1
      = .error (.fileNotFound ("No versions found for model " ++ name)) := by
  have hres : CachingModelRepository.resolve_versionT lst rst name "latest"
      = (.error (.fileNotFound ("No versions found for model " ++ name)),
         [.listVersions name]) := by
    unfold CachingModelRepository.resolve_versionT
      CachingModelRepository.get_available_versionsT
    rw [hl]
    simp [hr, pySortTags]
  simp only [CachingModelRepository.get_modelT, hres]

/-- C5 witness: with concrete empty tiers, `get(m, "latest")` is NotFound. -/
theorem c5_witness :
    LocalCacheRepository.get_available_versions lstW5 "m" = .ok []
      ∧ S3Repository.get_available_versions rstW5 "m" = .ok []
      ∧ (CachingModelRepository.get_modelT lstW5 rstW5 "m" "latest").1
          = .error (.fileNotFound "No versions found for model m") :=
  ⟨rfl, rfl, c5_empty_tiers_latest_not_found lstW5 rstW5 "m" rfl rfl⟩

/-- C3: after a Local miss (`FileNotFoundError`), any error raised by the
Remote `get` — here constrained to the non-NotFound ones the claim speaks
about — is propagated by the Caching Repository unchanged: the overall result
is exactly that error value, with no wrapping, retry or fallback. -/
theorem c3_remote_error_propagates_unchanged (lst : LocalState)
    (rst : RemoteState) (name version actual : String) (tr : List RemoteCall)
    (m : String) (e : PyErr)
    (hres : CachingModelRepository.resolve_versionT lst rst name version
        = (.ok actual, tr))
    (hloc : LocalCacheRepository.get_model lst name actual
        = .error (.fileNotFound m))
    (hrem : S3Repository.get_model rst name actual = .error e)
    (hne : ∀ s, e ≠ .fileNotFound s) :
    (CachingModelRepository.get_modelT lst rst name version).1 = .error e := by
  simp only [CachingModelRepository.get_modelT, hres, hloc, hrem]

/-- C3 witness: a network failure (`connection reset`) from Remote after a
Local miss surfaces unchanged from the caching `get`. -/
theorem c3_witness :
    LocalCacheRepository.get_model lstW3 "m" "v1"
        = .error (.fileNotFound "Model m version v1 not found in local storage")
      ∧ S3Repository.get_model rstW3 "m" "v1" = .error (.other "connection reset")
      ∧ (CachingModelRepository.get_modelT lstW3 rstW3 "m" "v1").1
          = .error (.other "connection reset") :=
  ⟨rfl, rfl,
    c3_remote_error_propagates_unchanged lstW3 rstW3 "m" "v1" "v1" []
      "Model m version v1 not found in local storage" (.other "connection reset")
      rfl rfl rfl (fun s h => PyErr.noConfusion h)⟩

/-- C4: when the artifact came from Remote and the local promotion
`save_model` raises, the error is swallowed: the caching `get` still returns
the remotely fetched artifact (with the state as left by the failed save
attempt).  Promotion failure never fails the overall call. -/
theorem c4_promotion_failure_swallowed (lst : LocalState) (rst : RemoteState)
    (name version actual : String) (tr : List RemoteCall) (a : Artifact)
    (m : String)
    (hres : CachingModelRepository.resolve_versionT lst rst name version
        = (.ok actual, tr))
    (hloc : LocalCacheRepository.get_model lst name actual
        = .error (.fileNotFound m))
    (hrem : S3Repository.get_model rst name actual = .ok a)
    (hsave : ∃ e, (LocalCacheRepository.save_model lst name actual a).1
        = .error e) :
    (CachingModelRepository.get_modelT lst rst name version).1
      = .ok (a, (LocalCacheRepository.save_model lst name actual a).2) := by
  simp only [CachingModelRepository.get_modelT, hres, hloc, hrem]

/-- C4 witness: with a write fault on the local store, the promotion save
fails, yet `get(m, "v1")` returns the remote artifact. -/
theorem c4_witness :
    (LocalCacheRepository.save_model lstW4 "m" "v1" 7).1
        = .error (.other "failed to write model file")
      ∧ (CachingModelRepository.get_modelT lstW4 rstW4 "m" "v1").1
          = .ok (7, (LocalCacheRepository.save_model lstW4 "m" "v1" 7).2) :=
  ⟨rfl,
    c4_promotion_failure_swallowed lstW4 rstW4 "m" "v1" "v1" [] 7
      "Model m version v1 not found in local storage"
      rfl rfl rfl ⟨.other "failed to write model file", rfl⟩⟩

/-- A state on which `save_model` is a no-op returning the conventional path:
the version directory exists, there is no write fault, and both the file
write and the cache assignment leave the state unchanged. -/
theorem save_model_fixpoint (T : LocalState) (n v : String) (a : Artifact)
    (h1 : hasDirB T.disk n v = true) (h2 : T.saveFault = false)
    (h3 : writeFile T.disk n v a = T.disk)
    (h4 : cacheInsert T.cache (n ++ ":" ++ v) a = T.cache) :
    LocalCacheRepository.save_model T n v a
      = (.ok (modelPathStr T.baseDir n v), T) := by
  obtain ⟨b, d, c, f⟩ := T
  dsimp only at h1 h2 h3 h4 ⊢
  subst h2
  unfold LocalCacheRepository.save_model
  simp [h1, h3, h4]

/-- C2 (amended only in presentation): given that the Local listing succeeds
with `lv`, the composite `listVersions` succeeds, its result is sorted
ascending by the embedded integer and deduplicated, and it holds exactly the
union of Local's versions with Remote's — where Remote contributes its
versions when its call succeeds and nothing when it raises (the error is
caught, not propagated). -/
theorem c2_composite_list_union_sorted (lst : LocalState) (rst : RemoteState)
    (name : String) (lv : List String)
    (hl : LocalCacheRepository.get_available_versions lst name = .ok lv) :
    ∃ l, (CachingModelRepository.get_available_versionsT lst rst name).1 = .ok l
      ∧ l.Pairwise tagLe
      ∧ l.Nodup
      ∧ ∀ v, v ∈ l ↔ (v ∈ lv ∨
          ∃ rv, S3Repository.get_available_versions rst name = .ok rv ∧ v ∈ rv) := by
  cases hr : S3Repository.get_available_versions rst name with
  | ok rv =>
    refine ⟨pySortTags ((lv ++ rv).dedup), ?_, ?_, ?_, ?_⟩
    · simp only [CachingModelRepository.get_available_versionsT, hl, hr]
    · exact List.sorted_insertionSort tagLe _
    · exact ((List.perm_insertionSort tagLe _).symm).nodup (List.nodup_dedup _)
    · intro v
      rw [pySortTags, (List.perm_insertionSort tagLe _).mem_iff, List.mem_dedup,
        List.mem_append]
      constructor
      · rintro (hv | hv)
        · exact Or.inl hv
        · exact Or.inr ⟨rv, rfl, hv⟩
      · rintro (hv | ⟨rv2, hrv2, hv⟩)
        · exact Or.inl hv
        · injection hrv2 with h2
          exact Or.inr (h2 ▸ hv)
  | error e =>
    refine ⟨pySortTags ((lv ++ []).dedup), ?_, ?_, ?_, ?_⟩
    · simp only [CachingModelRepository.get_available_versionsT, hl, hr]
    · exact List.sorted_insertionSort tagLe _
    · exact ((List.perm_insertionSort tagLe _).symm).nodup (List.nodup_dedup _)
    · intro v
      rw [pySortTags, (List.perm_insertionSort tagLe _).mem_iff, List.mem_dedup,
        List.mem_append]
      constructor
      · rintro (hv | hv)
        · exact Or.inl hv
        · cases hv
      · rintro (hv | ⟨rv2, hrv2, hv⟩)
        · exact Or.inl hv
        · cases hrv2

/-- C2 witness: Local holds `v1`, the Remote listing raises; the composite
listing succeeds with exactly Local's versions. -/
theorem c2_witness :
    LocalCacheRepository.get_available_versions lstW2 "m" = .ok ["v1"]
      ∧ ∃ l, (CachingModelRepository.get_available_versionsT lstW2 rstW2 "m").1
            = .ok l
          ∧ l.Pairwise tagLe
          ∧ l.Nodup
          ∧ ∀ v, v ∈ l ↔ (v ∈ ["v1"] ∨
              ∃ rv, S3Repository.get_available_versions rstW2 "m" = .ok rv ∧ v ∈ rv) :=
  ⟨rfl, c2_composite_list_union_sorted lstW2 rstW2 "m" ["v1"] rfl⟩

/-- C6 (amended): for every pair successfully saved to Local whose version is
not the symbolic tag `"latest"`, `has_model` is true afterwards and the
caching `get` returns the saved artifact with an empty remote-call trace —
no call to the Remote store at all. -/
theorem c6_saved_pair_served_locally (st : LocalState) (rst : RemoteState)
    (n v : String) (a : Artifact) (p : String) (st₁ : LocalState)
    (hv : v ≠ "latest")
    (hs : LocalCacheRepository.save_model st n v a = (.ok p, st₁)) :
    LocalCacheRepository.has_model st₁ n v = .ok true
      ∧ CachingModelRepository.get_modelT st₁ rst n v = (.ok (a, st₁), []) := by
  obtain ⟨hf, hp, st1, hb, hc, hsf, hdir, hst⟩ := save_model_ok st n v a p st₁ hs
  have hcache : cacheLookup st₁.cache (n ++ ":" ++ v) = some a := by
    rw [hst]
    exact cacheLookup_insert st1.cache (n ++ ":" ++ v) a
  have hdisk : diskFile st₁.disk n v = some a := by
    rw [hst]
    exact diskFile_writeFile n v a st1.disk hdir
  have hloc : LocalCacheRepository.get_model st₁ n v = .ok (a, st₁) := by
    unfold LocalCacheRepository.get_model LocalCacheRepository.resolve_actual
    rw [beq_latest_false hv]
    simp [hcache]
  constructor
  · unfold LocalCacheRepository.has_model LocalCacheRepository.get_model_path
      LocalCacheRepository.resolve_for_path
    rw [beq_latest_false hv]
    simp [hdisk]
  · unfold CachingModelRepository.get_modelT CachingModelRepository.resolve_versionT
    rw [beq_latest_false hv]
    simp [hloc]

/-- C6 witness: after saving `(m, v1)` the local tier has it and the caching
`get` serves it with an empty remote trace. -/
theorem c6_witness :
    ("v1" : String) ≠ "latest"
      ∧ LocalCacheRepository.save_model c6wBase "m" "v1" 7
          = (.ok (modelPathStr "models" "m" "v1"), c6wSaved)
      ∧ LocalCacheRepository.has_model c6wSaved "m" "v1" = .ok true
      ∧ CachingModelRepository.get_modelT c6wSaved rstC6 "m" "v1"
          = (.ok (7, c6wSaved), []) :=
  ⟨by decide, rfl,
   (c6_saved_pair_served_locally c6wBase rstC6 "m" "v1" 7
      (modelPathStr "models" "m" "v1") c6wSaved (by decide) rfl).1,
   (c6_saved_pair_served_locally c6wBase rstC6 "m" "v1" 7
      (modelPathStr "models" "m" "v1") c6wSaved (by decide) rfl).2⟩

/-- C9: `save_model` is idempotent — a second save with the same arguments
returns the same path and leaves the state (disk content and in-memory cache
entry included) exactly as after the first save. -/
theorem c9_save_idempotent (st : LocalState) (n v : String) (a : Artifact)
    (p : String) (st₁ : LocalState)
    (hs : LocalCacheRepository.save_model st n v a = (.ok p, st₁)) :
    LocalCacheRepository.save_model st₁ n v a = (.ok p, st₁) := by
  obtain ⟨hf, hp, st1, hb, hc, hsf, hdir, hst⟩ := save_model_ok st n v a p st₁ hs
  have h1 : hasDirB st₁.disk n v = true := by
    rw [hst]
    exact (hasDirB_writeFile st1.disk n v a).trans hdir
  have h2 : st₁.saveFault = false := by
    rw [hst]
    exact hsf.trans hf
  have h3 : writeFile st₁.disk n v a = st₁.disk := by
    rw [hst]
    exact writeFile_idem st1.disk n v a
  have h4 : cacheInsert st₁.cache (n ++ ":" ++ v) a = st₁.cache := by
    rw [hst]
    exact cacheInsert_idem st1.cache (n ++ ":" ++ v) a
  have hpath : p = modelPathStr st₁.baseDir n v := by
    rw [hst]
    dsimp only
    rw [hb]
    exact hp
  rw [save_model_fixpoint st₁ n v a h1 h2 h3 h4, hpath]

/-- C9 witness: saving `(m, v1, 3)` twice from the empty store returns the
same path and state both times. -/
theorem c9_witness :
    LocalCacheRepository.save_model c9Base "m" "v1" 3
        = (.ok (modelPathStr "models" "m" "v1"), c9Saved)
      ∧ LocalCacheRepository.save_model c9Saved "m" "v1" 3
        = (.ok (modelPathStr "models" "m" "v1"), c9Saved) :=
  ⟨rfl, c9_save_idempotent c9Base "m" "v1" 3 (modelPathStr "models" "m" "v1")
    c9Saved rfl⟩

/-- C10 (amended): for every key `name:version` with `version` not the
symbolic tag `"latest"` present in the in-memory cache, `get_model` returns
the cached artifact with the state untouched, independently of the disk; in
particular after `save_model` followed by external deletion of the on-disk
file, `get_model` still returns the saved artifact although `has_model` is
false. -/
theorem c10_cache_hit_ignores_disk :
    (∀ (st : LocalState) (n v : String) (a : Artifact), v ≠ "latest" →
        cacheLookup st.cache (n ++ ":" ++ v) = some a →
        LocalCacheRepository.get_model st n v = .ok (a, st))
      ∧ ∀ (st : LocalState) (n v : String) (a : Artifact) (p : String)
          (st₁ : LocalState), v ≠ "latest" →
          LocalCacheRepository.save_model st n v a = (.ok p, st₁) →
          LocalCacheRepository.get_model (deleteModelFile st₁ n v) n v
              = .ok (a, deleteModelFile st₁ n v)
            ∧ LocalCacheRepository.has_model (deleteModelFile st₁ n v) n v
              = .ok false := by
  have hget : ∀ (st : LocalState) (n v : String) (a : Artifact), v ≠ "latest" →
      cacheLookup st.cache (n ++ ":" ++ v) = some a →
      LocalCacheRepository.get_model st n v = .ok (a, st) := by
    intro st n v a hv hcl
    unfold LocalCacheRepository.get_model LocalCacheRepository.resolve_actual
    rw [beq_latest_false hv]
    simp [hcl]
  refine ⟨hget, ?_⟩
  intro st n v a p st₁ hv hs
  obtain ⟨hf, hp, st1, hb, hc, hsf, hdir, hst⟩ := save_model_ok st n v a p st₁ hs
  have hcl : cacheLookup (deleteModelFile st₁ n v).cache (n ++ ":" ++ v) = some a := by
    unfold deleteModelFile
    rw [hst]
    exact cacheLookup_insert st1.cache (n ++ ":" ++ v) a
  refine ⟨hget (deleteModelFile st₁ n v) n v a hv hcl, ?_⟩
  have hdf : diskFile (deleteModelFile st₁ n v).disk n v = none := by
    unfold deleteModelFile
    exact diskFile_delete n v st₁.disk
  unfold LocalCacheRepository.has_model LocalCacheRepository.get_model_path
    LocalCacheRepository.resolve_for_path
  rw [beq_latest_false hv]
  simp [hdf]

/-- C10 witness: `(m, v1, 9)` saved, its file deleted; `get_model` still
returns `9` from the cache while `has_model` reports false. -/
theorem c10_witness :
    cacheLookup c10Saved.cache ("m" ++ ":" ++ "v1") = some 9
      ∧ LocalCacheRepository.get_model c10Saved "m" "v1" = .ok (9, c10Saved)
      ∧ LocalCacheRepository.save_model c10Base "m" "v1" 9
          = (.ok (modelPathStr "models" "m" "v1"), c10Saved)
      ∧ LocalCacheRepository.get_model (deleteModelFile c10Saved "m" "v1") "m" "v1"
          = .ok (9, deleteModelFile c10Saved "m" "v1")
      ∧ LocalCacheRepository.has_model (deleteModelFile c10Saved "m" "v1") "m" "v1"
          = .ok false :=
  ⟨rfl,
   c10_cache_hit_ignores_disk.1 c10Saved "m" "v1" 9 (by decide) rfl,
   rfl,
   (c10_cache_hit_ignores_disk.2 c10Base "m" "v1" 9 (modelPathStr "models" "m" "v1")
      c10Saved (by decide) rfl).1,
   (c10_cache_hit_ignores_disk.2 c10Base "m" "v1" 9 (modelPathStr "models" "m" "v1")
      c10Saved (by decide) rfl).2⟩

theorem fetchCount_fetchModel (n v : String) :
    fetchCount [RemoteCall.fetchModel n v] = 1 := rfl

/-- C8 (amended): every caching `get` performs at most one artifact fetch
from Remote; when the requested version is explicit and Local serves it, the
Remote store is not contacted at all (empty trace); and whenever Local holds
the resolved version — the `"latest"` path included, where resolution itself
issues a remote `listVersions` call — no artifact fetch occurs. -/
theorem c8_fetch_discipline (lst : LocalState) (rst : RemoteState)
    (name version : String) :
    fetchCount (CachingModelRepository.get_modelT lst rst name version).2 ≤ 1
      ∧ (version ≠ "latest" →
          ∀ (a : Artifact) (lst' : LocalState),
            LocalCacheRepository.get_model lst name version = .ok (a, lst') →
            (CachingModelRepository.get_modelT lst rst name version).2 = [])
      ∧ ∀ (actual : String) (tr : List RemoteCall) (a : Artifact)
          (lst' : LocalState),
          CachingModelRepository.resolve_versionT lst rst name version
              = (.ok actual, tr) →
          LocalCacheRepository.get_model lst name actual = .ok (a, lst') →
          fetchCount (CachingModelRepository.get_modelT lst rst name version).2
            = 0 := by
  refine ⟨?_, ?_, ?_⟩
  · have htr := resolve_versionT_fetchCount lst rst name version
    rcases hres : CachingModelRepository.resolve_versionT lst rst name version
      with ⟨res, tr⟩
    rw [hres] at htr
    cases res with
    | error e => simp [CachingModelRepository.get_modelT, hres, htr]
    | ok actual =>
      cases hloc : LocalCacheRepository.get_model lst name actual with
      | ok pr =>
        obtain ⟨a2, l2⟩ := pr
        simp [CachingModelRepository.get_modelT, hres, hloc, htr]
      | error e =>
        cases e with
        | fileNotFound m =>
          cases hrem : S3Repository.get_model rst name actual with
          | error e2 =>
            simp [CachingModelRepository.get_modelT, hres, hloc, hrem,
              fetchCount_append, fetchCount_fetchModel, htr]
          | ok a2 =>
            simp [CachingModelRepository.get_modelT, hres, hloc, hrem,
              fetchCount_append, fetchCount_fetchModel, htr]
        | valueError m => simp [CachingModelRepository.get_modelT, hres, hloc, htr]
        | other m => simp [CachingModelRepository.get_modelT, hres, hloc, htr]
  · intro hv a lst' hloc
    have hres : CachingModelRepository.resolve_versionT lst rst name version
        = (.ok version, []) := by
      unfold CachingModelRepository.resolve_versionT
      rw [beq_latest_false hv]
      simp
    simp [CachingModelRepository.get_modelT, hres, hloc]
  · intro actual tr a lst' hres hloc
    have htr := resolve_versionT_fetchCount lst rst name version
    rw [hres] at htr
    simp only [CachingModelRepository.get_modelT, hres, hloc]
    exact htr

/-- C8 witness: with Local holding `(m, v1)`, an explicit `get(m, v1)` makes
no remote contact at all, and `get(m, "latest")` — where resolution does
contact Remote for listing — performs zero artifact fetches; both calls stay
within the at-most-one-fetch bound. -/
theorem c8_witness :
    fetchCount (CachingModelRepository.get_modelT lstC8 rstC8 "m" "v1").2 ≤ 1
      ∧ (CachingModelRepository.get_modelT lstC8 rstC8 "m" "v1").2 = []
      ∧ fetchCount
          (CachingModelRepository.get_modelT lstC8 rstC8 "m" "latest").2 = 0 :=
  ⟨(c8_fetch_discipline lstC8 rstC8 "m" "v1").1,
   (c8_fetch_discipline lstC8 rstC8 "m" "v1").2.1 (by decide) 5 lstC8Cached rfl,
   (c8_fetch_discipline lstC8 rstC8 "m" "latest").2.2 "v1" [.listVersions "m"]
     5 lstC8Cached rfl rfl⟩
